import Mathlib

/-!
Verification development for the smart olive irrigation backend.

The repository carries several near-duplicate copies of the irrigation
engine.  Each namespace below is a shallow embedding of one source file:

* `Main`           — `src/main.py` (helper functions of the Flask app);
* `MockData`       — `src/main_mock_data.py` (the "1.1-fixed" variant with
                     guards and clamps);
* `Et0Service`     — `src/et0_service.py`;
* `SavingsService` — `src/savings_service.py`.

Real-valued formulas (solar geometry, ET0) are embedded over `ℝ`; the
purely rational arithmetic (crop coefficient, water balance, volumetric
conversion, savings) over `ℚ`.  Python's `round(x, 2)` is modelled by
`roundTo2`.  A Python expression that can raise (division by a zero
denominator, `math.acos` outside `[-1, 1]`) is modelled either by an
`Option` result or by an explicit definition of the problematic
subexpression, as noted at each definition.
-/

open Real

/-- Model of Python `round(x, 2)` over exact rationals (round half away
from the floor at 1/2; binary-float tie behaviour is irrelevant for the
inputs considered here). -/
def roundTo2 (q : ℚ) : ℚ := (round (q * 100) : ℤ) / 100

/-- The savings dictionary returned by every `calculate_water_savings` /
`calculate_savings` variant (`water_saved_m3` and
`water_saved_cubic_meters` are the same field under two JSON keys). -/
structure SavingsReport where
  water_saved_liters : ℚ
  water_saved_cubic_meters : ℚ
  percentage_saved : ℚ
  cost_saved_tnd : ℚ
  cost_saved_usd : ℚ
deriving DecidableEq

/-- The all-zero report returned by the guarded variant on a degenerate
baseline (`src/main_mock_data.py` lines 222-229). -/
def zeroSavings : SavingsReport :=
  { water_saved_liters := 0
    water_saved_cubic_meters := 0
    percentage_saved := 0
    cost_saved_tnd := 0
    cost_saved_usd := 0 }

/-- One processed forecast entry (the dictionaries built in
`fetch_weather_data`, `src/main_mock_data.py` lines 104-112). -/
structure ForecastDay where
  temp_max : ℚ
  temp_min : ℚ
  humidity : ℚ
  wind_speed : ℚ
  weather : String
  rain_probability : ℚ
deriving DecidableEq

/-- The `current` weather dictionary (`src/main_mock_data.py` lines
116-122). -/
structure CurrentWeather where
  temperature : ℚ
  humidity : ℚ
  wind_speed : ℚ
  weather : String
deriving DecidableEq

/-- The volumetric fields computed by `calculate_irrigation`
(`src/main.py` lines 308-321, `src/main_mock_data.py` lines 375-388). -/
structure IrrigationVolumes where
  area_m2 : ℚ
  irrigation_m3 : ℚ
  irrigation_liters : ℚ
  liters_per_tree : ℚ
  hours_per_tree : ℚ
deriving DecidableEq

/-- Net irrigation depth: `etc = total_et0 * kc`;
`net_irrigation_mm = max(0, etc - expected_rain)`
(`src/main.py` lines 302-306; identical in `src/main_mock_data.py`
lines 369-373). -/
def net_irrigation_mm (total_et0 kc expected_rain : ℚ) : ℚ :=
  max 0 (total_et0 * kc - expected_rain)

namespace Main

/-- `math.radians(latitude)` (`src/main.py` line 69). -/
noncomputable def lat_rad (latitude : ℝ) : ℝ := latitude * Real.pi / 180

/-- `0.409 * sin((2*pi/365) * day_of_year - 1.39)` (`src/main.py`
line 70). -/
noncomputable def solar_declination (day_of_year : ℝ) : ℝ :=
  0.409 * Real.sin (2 * Real.pi / 365 * day_of_year - 1.39)

/-- The argument handed to `math.acos` on `src/main.py` line 71 (and
identically `src/et0_service.py` line 19, `src/main_live_data.py` line
96): `-math.tan(lat_rad) * math.tan(solar_declination)`, with no clamp.
Python raises `ValueError` when this value leaves `[-1, 1]`. -/
noncomputable def acos_arg (latitude day_of_year : ℝ) : ℝ :=
  -(Real.tan (lat_rad latitude) * Real.tan (solar_declination day_of_year))

/-- `u2 = wind_speed * (4.87 / math.log(67.8 * 10 - 5.42))`
(`src/main.py` line 94). -/
noncomputable def u2 (wind_speed : ℝ) : ℝ :=
  wind_speed * (4.87 / Real.log (67.8 * 10 - 5.42))

/-- `calculate_crop_coefficient` (`src/main.py` lines 101-122): base
table `{initial: 0.50, mid: 0.65, late: 0.60}` with `.get` default
`0.65`, plus the NDVI-band adjustment; no clamp. `src/kc_service.py`
lines 9-20 compute the same value. -/
def calculate_crop_coefficient (ndvi_score : ℚ) (growth_stage : String) : ℚ :=
  (if growth_stage = "initial" then 0.50
   else if growth_stage = "mid" then 0.65
   else if growth_stage = "late" then 0.60
   else 0.65) +
  (if ndvi_score < 0.3 then 0.15
   else if ndvi_score < 0.5 then 0.10
   else if ndvi_score < 0.7 then 0.05
   else 0.0)

/-- `calculate_water_savings` (`src/main.py` lines 124-138).  There is
no guard: the percentage line divides by `traditional_amount`, so the
Python function raises `ZeroDivisionError` when it is zero; that raise
is modelled as `Option.none`. -/
def calculate_water_savings (traditional_amount smart_amount : ℚ) :
    Option SavingsReport :=
  if traditional_amount = 0 then none
  else
    some
      { water_saved_liters := roundTo2 ((traditional_amount - smart_amount) * 1000)
        water_saved_cubic_meters := roundTo2 (traditional_amount - smart_amount)
        percentage_saved :=
          roundTo2 ((traditional_amount - smart_amount) / traditional_amount * 100)
        cost_saved_tnd :=
          roundTo2 ((traditional_amount - smart_amount) * 1000 * 0.0005)
        cost_saved_usd :=
          roundTo2 ((traditional_amount - smart_amount) * 1000 * 0.0005 * 0.32) }

/-- The savings step of the pipeline: `traditional_m3 = irrigation_m3 *
1.5` then `calculate_water_savings(traditional_m3, irrigation_m3)`
(`src/main.py` lines 314-318). -/
def pipeline_savings (irrigation_m3 : ℚ) : Option SavingsReport :=
  calculate_water_savings (irrigation_m3 * 1.5) irrigation_m3

/-- The volumetric conversion in `calculate_irrigation` (`src/main.py`
lines 308-321). `tree_count` is an `int` in the source. -/
def irrigation_volumes (net_mm size_hectares : ℚ) (tree_count : ℤ) :
    IrrigationVolumes :=
  let area_m2 := size_hectares * 10000
  let irrigation_m3 := net_mm / 1000 * area_m2
  let irrigation_liters := irrigation_m3 * 1000
  let liters_per_tree :=
    if 0 < tree_count then irrigation_liters / (tree_count : ℚ) else 0
  let hours_per_tree := if 0 < liters_per_tree then liters_per_tree / 4 else 0
  { area_m2 := area_m2
    irrigation_m3 := irrigation_m3
    irrigation_liters := irrigation_liters
    liters_per_tree := liters_per_tree
    hours_per_tree := hours_per_tree }

end Main

namespace Et0Service

/-- `u2 = wind_speed * (4.87 / math.log(67.8 * 10 - 5.42))`
(`src/et0_service.py` line 30) — same formula as `src/main.py`. -/
noncomputable def u2 (wind_speed : ℝ) : ℝ :=
  wind_speed * (4.87 / Real.log (67.8 * 10 - 5.42))

end Et0Service

namespace SavingsService

/-- `calculate_savings` (`src/savings_service.py` lines 6-21): textually
the same arithmetic as `src/main.py`'s `calculate_water_savings`,
likewise unguarded (division by `traditional`), modelled as `none` on a
zero baseline. -/
def calculate_savings (traditional smart : ℚ) : Option SavingsReport :=
  if traditional = 0 then none
  else
    some
      { water_saved_liters := roundTo2 ((traditional - smart) * 1000)
        water_saved_cubic_meters := roundTo2 (traditional - smart)
        percentage_saved := roundTo2 ((traditional - smart) / traditional * 100)
        cost_saved_tnd := roundTo2 ((traditional - smart) * 1000 * 0.0005)
        cost_saved_usd :=
          roundTo2 ((traditional - smart) * 1000 * 0.0005 * 0.32) }

end SavingsService

namespace MockData

/-- `math.radians(latitude)` (`src/main_mock_data.py` line 156). -/
noncomputable def lat_rad (latitude : ℝ) : ℝ := latitude * Real.pi / 180

/-- `0.409 * sin((2*pi/365) * day_of_year - 1.39)`
(`src/main_mock_data.py` line 157). -/
noncomputable def solar_declination (day_of_year : ℝ) : ℝ :=
  0.409 * Real.sin (2 * Real.pi / 365 * day_of_year - 1.39)

/-- The clamped arc-cosine argument of `src/main_mock_data.py` line 158:
`max(-1.0, min(1.0, -tan(lat_rad) * tan(solar_declination)))`. -/
noncomputable def acos_arg (latitude day_of_year : ℝ) : ℝ :=
  max (-1)
    (min 1
      (-(Real.tan (lat_rad latitude) * Real.tan (solar_declination day_of_year))))

/-- Wind adjustment of `src/main_mock_data.py` lines 180-182: `z = 10`,
`denom = log(67.8 * z + 5.42)` (note the `+`),
`u2 = wind_speed * (4.87 / denom) if denom > 0 else wind_speed`. -/
noncomputable def u2 (wind_speed : ℝ) : ℝ :=
  if 0 < Real.log (67.8 * 10 + 5.42) then
    wind_speed * (4.87 / Real.log (67.8 * 10 + 5.42))
  else wind_speed

open Classical in
/-- `calculate_et0` (`src/main_mock_data.py` lines 147-193).  The final
division sits in a `try`/`except` returning `0.0`; in exact arithmetic
the only raisable steps are the two divisions, so the `except` branch is
modelled by the zero-denominator test. -/
noncomputable def calculate_et0
    (temp_max temp_min humidity wind_speed latitude day_of_year : ℝ) : ℝ :=
  let temp_mean := (temp_max + temp_min) / 2
  let sunset_angle := Real.arccos (acos_arg latitude day_of_year)
  let dr := 1 + 0.033 * Real.cos (2 * Real.pi * day_of_year / 365)
  let ra := 37.6 * dr *
    (sunset_angle * Real.sin (lat_rad latitude) *
        Real.sin (solar_declination day_of_year) +
      Real.cos (lat_rad latitude) * Real.cos (solar_declination day_of_year) *
        Real.sin sunset_angle)
  let rs := (0.25 + 0.5) * ra
  let rn := max 0 (0.77 * rs - 0.9)
  let e_tmax := 0.6108 * Real.exp (17.27 * temp_max / (temp_max + 237.3))
  let e_tmin := 0.6108 * Real.exp (17.27 * temp_min / (temp_min + 237.3))
  let es := (e_tmax + e_tmin) / 2
  let ea := es * (humidity / 100)
  let vpd := max 0 (es - ea)
  let et0 :=
    if temp_mean + 273 = 0 ∨ 1 + 0.34 * u2 wind_speed = 0 then 0
    else
      (0.408 * rn + 900 / (temp_mean + 273) * u2 wind_speed * vpd) /
        (1 + 0.34 * u2 wind_speed)
  max 0 et0

/-- `calculate_crop_coefficient` (`src/main_mock_data.py` lines
196-214): same base table and NDVI adjustment as `src/main.py`, then
`kc = min(max(kc, 0.4), 0.85)`. -/
def calculate_crop_coefficient (ndvi_score : ℚ) (growth_stage : String) : ℚ :=
  min
    (max
      ((if growth_stage = "initial" then 0.50
        else if growth_stage = "mid" then 0.65
        else if growth_stage = "late" then 0.60
        else 0.65) +
       (if ndvi_score < 0.3 then 0.15
        else if ndvi_score < 0.5 then 0.10
        else if ndvi_score < 0.7 then 0.05
        else 0.0))
      0.4)
    0.85

/-- `calculate_water_savings` (`src/main_mock_data.py` lines 217-245):
guarded — a non-positive baseline or negative smart amount yields the
all-zero report; otherwise `saved = max(0, traditional - smart)`, cost
at `0.5` TND per cubic meter. -/
def calculate_water_savings (traditional_amount smart_amount : ℚ) :
    SavingsReport :=
  if traditional_amount ≤ 0 ∨ smart_amount < 0 then zeroSavings
  else
    let water_saved_m3 := max 0 (traditional_amount - smart_amount)
    { water_saved_liters := roundTo2 (water_saved_m3 * 1000)
      water_saved_cubic_meters := roundTo2 water_saved_m3
      percentage_saved :=
        roundTo2
          (if 0 < traditional_amount then water_saved_m3 / traditional_amount * 100
           else 0)
      cost_saved_tnd := roundTo2 (water_saved_m3 * 0.5)
      cost_saved_usd := roundTo2 (water_saved_m3 * 0.5 * 0.32) }

/-- The savings step of the pipeline: `traditional_m3 = irrigation_m3 *
1.5` then `calculate_water_savings(traditional_m3, irrigation_m3)`
(`src/main_mock_data.py` lines 381-385). -/
def pipeline_savings (irrigation_m3 : ℚ) : SavingsReport :=
  calculate_water_savings (irrigation_m3 * 1.5) irrigation_m3

/-- The volumetric conversion in `calculate_irrigation`
(`src/main_mock_data.py` lines 375-388): as in `src/main.py` but with
`area_m2 = max(0.0, size_hectares) * 10000.0`. -/
def irrigation_volumes (net_mm size_hectares : ℚ) (tree_count : ℤ) :
    IrrigationVolumes :=
  let area_m2 := max 0 size_hectares * 10000
  let irrigation_m3 := net_mm / 1000 * area_m2
  let irrigation_liters := irrigation_m3 * 1000
  let liters_per_tree :=
    if 0 < tree_count then irrigation_liters / (tree_count : ℚ) else 0
  let hours_per_tree := if 0 < liters_per_tree then liters_per_tree / 4 else 0
  { area_m2 := area_m2
    irrigation_m3 := irrigation_m3
    irrigation_liters := irrigation_liters
    liters_per_tree := liters_per_tree
    hours_per_tree := hours_per_tree }

/-- The single fallback day built when the forecast list is empty
(`src/main_mock_data.py` lines 346-350); both `temp_max` and `temp_min`
read the same `temperature` key of `current`. -/
def fallback_forecast (current : CurrentWeather) : ForecastDay :=
  { temp_max := current.temperature
    temp_min := current.temperature
    humidity := current.humidity
    wind_speed := current.wind_speed
    weather := current.weather
    rain_probability := 0 }

/-- The forecast window actually aggregated by `calculate_irrigation`
(`src/main_mock_data.py` lines 342-350): the first three entries, or —
when that slice is empty — a substituted one-day fallback built from
current conditions. -/
def effective_forecast (forecast : List ForecastDay)
    (current : CurrentWeather) : List ForecastDay :=
  let fc := forecast.take 3
  if fc = [] then [fallback_forecast current] else fc

end MockData

/-!
Theorems, one per claim (with witnesses or counterexamples as needed).
-/

/-- C1: whenever `traditional ≤ 0` or `smart < 0`, the guarded savings
computation of `src/main_mock_data.py` returns the all-zero report and
raises nothing; the unguarded variants in `src/main.py` and
`src/savings_service.py`, applied at the failing input
`traditional = 0, smart = 0`, instead divide by the zero baseline
(`ZeroDivisionError`, modelled as `Option.none`). -/
theorem savings_guard_all_zero :
    (∀ t s : ℚ, t ≤ 0 ∨ s < 0 →
      MockData.calculate_water_savings t s = zeroSavings) ∧
    Main.calculate_water_savings 0 0 = none ∧
    SavingsService.calculate_savings 0 0 = none := by
  refine ⟨fun t s h => ?_, ?_, ?_⟩
  · simp only [MockData.calculate_water_savings]
    rw [if_pos h]
  · simp [Main.calculate_water_savings]
  · simp [SavingsService.calculate_savings]

/-- Witness for C1: the guarded variant at the concrete degenerate
input `(0, 0)` returns the all-zero report. -/
theorem savings_guard_all_zero_witness :
    MockData.calculate_water_savings 0 0 = zeroSavings :=
  savings_guard_all_zero.1 0 0 (Or.inl le_rfl)

/-- C4: for every `ndvi ∈ [0, 1]` and every growth-stage string
(unrecognized stages falling back to the mid base `0.65`), both the
unclamped crop coefficient of `src/main.py` (same arithmetic as
`src/kc_service.py`) and the clamped one of `src/main_mock_data.py`
lie in `[0.40, 0.85]`. -/
theorem kc_bounds (ndvi : ℚ) (stage : String) (h0 : 0 ≤ ndvi) (h1 : ndvi ≤ 1) :
    (0.40 ≤ Main.calculate_crop_coefficient ndvi stage ∧
      Main.calculate_crop_coefficient ndvi stage ≤ 0.85) ∧
    (0.40 ≤ MockData.calculate_crop_coefficient ndvi stage ∧
      MockData.calculate_crop_coefficient ndvi stage ≤ 0.85) := by
  constructor
  · unfold Main.calculate_crop_coefficient
    split_ifs <;> norm_num
  · unfold MockData.calculate_crop_coefficient
    constructor
    · exact le_min (le_trans (by norm_num) (le_max_right _ _)) (by norm_num)
    · exact min_le_right _ _

/-- Witness for C4: the concrete scenario `ndvi = 0.45`, stage `mid`. -/
theorem kc_bounds_witness :
    (0.40 ≤ Main.calculate_crop_coefficient 0.45 "mid" ∧
      Main.calculate_crop_coefficient 0.45 "mid" ≤ 0.85) ∧
    (0.40 ≤ MockData.calculate_crop_coefficient 0.45 "mid" ∧
      MockData.calculate_crop_coefficient 0.45 "mid" ≤ 0.85) :=
  kc_bounds 0.45 "mid" (by norm_num) (by norm_num)

/-- C5 counterexample: at the concrete empty forecast window (with the
fallback current conditions of the source), `calculate_irrigation` in
`src/main_mock_data.py` does NOT fail at the boundary: it substitutes a
one-day default forecast built from current conditions and proceeds to
aggregate over it. -/
theorem empty_forecast_substituted_cex :
    MockData.effective_forecast []
        { temperature := 28, humidity := 65, wind_speed := 3.5, weather := "Clear" } =
      [MockData.fallback_forecast
        { temperature := 28, humidity := 65, wind_speed := 3.5, weather := "Clear" }] ∧
    MockData.effective_forecast []
        { temperature := 28, humidity := 65, wind_speed := 3.5, weather := "Clear" } ≠
      [] := by
  constructor
  · rfl
  · simp [MockData.effective_forecast, MockData.fallback_forecast]

/-- C5 (amended): an empty forecast window is never rejected; for every
current-weather record, the aggregation in `src/main_mock_data.py`
silently proceeds over the substituted single fallback day. -/
theorem empty_forecast_substitutes_default (current : CurrentWeather) :
    MockData.effective_forecast [] current =
      [MockData.fallback_forecast current] := rfl

/-- C7: the net irrigation depth `max(0, total_et0 * kc -
expected_rain)` (`src/main.py` lines 302-306, identically
`src/main_mock_data.py` lines 369-373) is never negative, is
non-decreasing in `total_et0`, and is non-increasing in
`expected_rain`. -/
theorem net_irrigation_props (t t' kc r r' : ℚ) (ht : 0 ≤ t) (hr : 0 ≤ r) :
    0 ≤ net_irrigation_mm t kc r ∧
    (t ≤ t' → net_irrigation_mm t kc r ≤ net_irrigation_mm t' kc r) ∧
    (r ≤ r' → net_irrigation_mm t kc r' ≤ net_irrigation_mm t kc r) := by
  unfold net_irrigation_mm
  refine ⟨le_max_left 0 _, fun htt => ?_, fun hrr => ?_⟩
  · apply max_le (le_max_left 0 _)
    rcases le_or_lt 0 kc with hk | hk
    · exact le_trans (by nlinarith) (le_max_right 0 _)
    · refine le_trans ?_ (le_max_left 0 _)
      nlinarith [mul_nonneg ht (neg_nonneg.mpr hk.le)]
  · apply max_le (le_max_left 0 _)
    exact le_trans (by linarith) (le_max_right 0 _)

/-- Witness for C7 at concrete inputs `t = 1 ≤ t' = 2`, `kc = 3/4`,
`r = 1 ≤ r' = 2`. -/
theorem net_irrigation_props_witness :
    0 ≤ net_irrigation_mm 1 (3/4) 1 ∧
    net_irrigation_mm 1 (3/4) 1 ≤ net_irrigation_mm 2 (3/4) 1 ∧
    net_irrigation_mm 1 (3/4) 2 ≤ net_irrigation_mm 1 (3/4) 1 := by
  obtain ⟨h1, h2, h3⟩ :=
    net_irrigation_props 1 2 (3/4) 1 2 (by norm_num) (by norm_num)
  exact ⟨h1, h2 (by norm_num), h3 (by norm_num)⟩

/-- C8: the volumetric conversion.  Concretely, `net = 5.0 mm`,
`area = 2.0 ha`, `400` trees give `100 m³`, `250 L/tree`, `62.5 h/tree`
in both `src/main.py` and `src/main_mock_data.py`; in general the
volume is `(net/1000) * area * 10000`, liters per tree divide the
volume by the tree count when positive (else `0`), and hours per tree
divide by the fixed `4 L/h` emitter rate when liters are positive
(else `0`). -/
theorem irrigation_volume_conversion :
    (Main.irrigation_volumes 5 2 400 =
        { area_m2 := 20000, irrigation_m3 := 100, irrigation_liters := 100000,
          liters_per_tree := 250, hours_per_tree := 125/2 } ∧
      MockData.irrigation_volumes 5 2 400 =
        { area_m2 := 20000, irrigation_m3 := 100, irrigation_liters := 100000,
          liters_per_tree := 250, hours_per_tree := 125/2 }) ∧
    ∀ (net area : ℚ) (trees : ℤ),
      (Main.irrigation_volumes net area trees).irrigation_m3 =
        net / 1000 * (area * 10000) ∧
      (0 ≤ area →
        (MockData.irrigation_volumes net area trees).irrigation_m3 =
          net / 1000 * (area * 10000)) ∧
      (0 < trees →
        (Main.irrigation_volumes net area trees).liters_per_tree =
          (Main.irrigation_volumes net area trees).irrigation_m3 * 1000 /
            (trees : ℚ)) ∧
      (¬0 < trees → (Main.irrigation_volumes net area trees).liters_per_tree = 0) ∧
      (0 < (Main.irrigation_volumes net area trees).liters_per_tree →
        (Main.irrigation_volumes net area trees).hours_per_tree =
          (Main.irrigation_volumes net area trees).liters_per_tree / 4) ∧
      (¬0 < (Main.irrigation_volumes net area trees).liters_per_tree →
        (Main.irrigation_volumes net area trees).hours_per_tree = 0) := by
  constructor
  · constructor <;>
      norm_num [Main.irrigation_volumes, MockData.irrigation_volumes,
        IrrigationVolumes.mk.injEq]
  · intro net area trees
    refine ⟨rfl, fun ha => ?_, fun htr => ?_, fun htr => ?_, fun hl => ?_,
      fun hl => ?_⟩
    · simp only [MockData.irrigation_volumes]
      rw [max_eq_right ha]
    · simp only [Main.irrigation_volumes]
      rw [if_pos htr]
    · simp only [Main.irrigation_volumes]
      rw [if_neg htr]
    · simp only [Main.irrigation_volumes] at hl ⊢
      rw [if_pos hl]
    · simp only [Main.irrigation_volumes] at hl ⊢
      rw [if_neg hl]

/-- Witness for C8: the general formulas applied at the concrete
scenario of the spec. -/
theorem irrigation_volume_conversion_witness :
    (MockData.irrigation_volumes 5 2 400).irrigation_m3 =
      (5 : ℚ) / 1000 * (2 * 10000) ∧
    (Main.irrigation_volumes 5 2 400).liters_per_tree =
      (Main.irrigation_volumes 5 2 400).irrigation_m3 * 1000 / ((400 : ℤ) : ℚ) := by
  obtain ⟨-, hmock, hlpt, -, -, -⟩ := irrigation_volume_conversion.2 5 2 400
  exact ⟨hmock (by norm_num), hlpt (by norm_num)⟩

/-- C9 counterexample: at the concrete positive smart volume
`irrigation_m3 = 1/200` (satisfying the claim's hypothesis), the
reported `water_saved_cubic_meters` of the pipeline is the rounded value
`0`, not exactly half of `irrigation_m3`. -/
theorem pipeline_savings_not_exactly_half_cex :
    (0 : ℚ) < 1 / 200 ∧
    (MockData.pipeline_savings (1 / 200)).water_saved_cubic_meters ≠
      (1 / 200 : ℚ) / 2 := by
  constructor
  · norm_num
  · norm_num [MockData.pipeline_savings, MockData.calculate_water_savings,
      roundTo2, round_eq, max_def]

/-- C9 (amended): in the pipeline the traditional baseline is
`1.5 * irrigation_m3`, so for every strictly positive `irrigation_m3`
the reported `percentage_saved` is the constant `33.33` and the
reported `water_saved_cubic_meters` is half of `irrigation_m3` rounded
to two decimals (exactly half before rounding), independently of all
other inputs — in `src/main_mock_data.py` and in `src/main.py` alike. -/
theorem pipeline_savings_third_and_half (m : ℚ) (hm : 0 < m) :
    ((MockData.pipeline_savings m).percentage_saved = 33.33 ∧
      (MockData.pipeline_savings m).water_saved_cubic_meters = roundTo2 (m / 2)) ∧
    ∃ r, Main.pipeline_savings m = some r ∧
      r.percentage_saved = 33.33 ∧
      r.water_saved_cubic_meters = roundTo2 (m / 2) := by
  have hm' : m ≠ 0 := ne_of_gt hm
  have hpos : (0 : ℚ) < m * 1.5 := by nlinarith
  have hne : ¬(m * 1.5 ≤ 0 ∨ m < 0) := by
    push_neg
    exact ⟨hpos, hm.le⟩
  have hsub : m * 1.5 - m = m / 2 := by ring
  have hmax : max 0 (m * 1.5 - m) = m / 2 := by
    rw [max_eq_right (by nlinarith)]
    exact hsub
  have hpct : m / 2 / (m * 1.5) * 100 = 100 / 3 := by
    field_simp
    ring
  have h333 : roundTo2 (100 / 3) = 33.33 := by
    norm_num [roundTo2, round_eq]
  constructor
  · constructor
    · simp only [MockData.pipeline_savings, MockData.calculate_water_savings]
      rw [if_neg hne]
      dsimp only
      rw [if_pos hpos, hmax, hpct, h333]
    · simp only [MockData.pipeline_savings, MockData.calculate_water_savings]
      rw [if_neg hne]
      dsimp only
      rw [hmax]
  · have hne0 : ¬(m * 1.5 = 0) := ne_of_gt hpos
    simp only [Main.pipeline_savings, Main.calculate_water_savings]
    rw [if_neg hne0]
    refine ⟨_, rfl, ?_, ?_⟩
    · dsimp only
      rw [hsub, hpct, h333]
    · dsimp only
      rw [hsub]

/-- Witness for C9 (amended) at the concrete smart volume `1`. -/
theorem pipeline_savings_third_and_half_witness :
    ((MockData.pipeline_savings 1).percentage_saved = 33.33 ∧
      (MockData.pipeline_savings 1).water_saved_cubic_meters = roundTo2 (1 / 2)) ∧
    ∃ r, Main.pipeline_savings 1 = some r ∧
      r.percentage_saved = 33.33 ∧
      r.water_saved_cubic_meters = roundTo2 (1 / 2) :=
  pipeline_savings_third_and_half 1 (by norm_num)

/-- C10: the liter-based cost formula `saved_liters * 0.0005` of
`src/main.py` / `src/savings_service.py` agrees exactly with the
m³-based `saved_m3 * 0.5` of `src/main_mock_data.py`; the two unguarded
savings variants are literally the same function, and on any
well-formed input (positive baseline, `0 ≤ smart ≤ traditional`, hence
equal saved volumes) the unguarded and the guarded implementations
report identical `cost_saved_tnd` and `cost_saved_usd`. -/
theorem cost_formulas_equivalent :
    (∀ d : ℚ, d * 1000 * 0.0005 = d * 0.5) ∧
    (∀ t s : ℚ, SavingsService.calculate_savings t s =
      Main.calculate_water_savings t s) ∧
    ∀ t s : ℚ, 0 < t → 0 ≤ s → s ≤ t →
      ∃ r, Main.calculate_water_savings t s = some r ∧
        r.cost_saved_tnd = (MockData.calculate_water_savings t s).cost_saved_tnd ∧
        r.cost_saved_usd = (MockData.calculate_water_savings t s).cost_saved_usd := by
  refine ⟨fun d => by ring, fun t s => rfl, fun t s ht hs hst => ?_⟩
  have hne0 : ¬(t = 0) := ne_of_gt ht
  have hne : ¬(t ≤ 0 ∨ s < 0) := by
    push_neg
    exact ⟨ht, hs⟩
  have hmax : max 0 (t - s) = t - s := max_eq_right (by linarith)
  simp only [Main.calculate_water_savings, MockData.calculate_water_savings]
  rw [if_neg hne0, if_neg hne]
  refine ⟨_, rfl, ?_, ?_⟩
  · dsimp only
    rw [hmax]
    exact congrArg roundTo2 (by ring)
  · dsimp only
    rw [hmax]
    exact congrArg roundTo2 (by ring)

/-- Witness for C10 at the concrete volumes `traditional = 2`,
`smart = 1`. -/
theorem cost_formulas_equivalent_witness :
    ∃ r, Main.calculate_water_savings 2 1 = some r ∧
      r.cost_saved_tnd = (MockData.calculate_water_savings 2 1).cost_saved_tnd ∧
      r.cost_saved_usd = (MockData.calculate_water_savings 2 1).cost_saved_usd :=
  cost_formulas_equivalent.2.2 2 1 (by norm_num) (by norm_num) (by norm_num)

/-- C3: for every valid observation (humidity in `[0,100]`, wind `≥ 0`,
latitude in `[-90,90]`, day of year in `[1,366]`), the ET0 computation
of `src/main_mock_data.py` — total thanks to its clamp, its guarded
logarithm and its exception handler — returns a non-negative value. -/
theorem et0_nonneg (temp_max temp_min humidity wind_speed latitude day : ℝ)
    (hh0 : 0 ≤ humidity) (hh1 : humidity ≤ 100) (hw : 0 ≤ wind_speed)
    (hl0 : -90 ≤ latitude) (hl1 : latitude ≤ 90)
    (hd0 : 1 ≤ day) (hd1 : day ≤ 366) :
    0 ≤ MockData.calculate_et0 temp_max temp_min humidity wind_speed latitude day := by
  unfold MockData.calculate_et0
  dsimp only
  exact le_max_left 0 _

/-- Witness for C3: the concrete scenario of the spec (`temp_max` 30,
`temp_min` 20, humidity 60, wind 3.2 m/s, latitude 35.8, day 300). -/
theorem et0_nonneg_witness :
    0 ≤ MockData.calculate_et0 30 20 60 3.2 35.8 300 :=
  et0_nonneg 30 20 60 3.2 35.8 300 (by norm_num) (by norm_num) (by norm_num)
    (by norm_num) (by norm_num) (by norm_num) (by norm_num)

/-- C6 counterexample: the wind adjustments of `src/main_mock_data.py`
(logarithm of `67.8 * 10 + 5.42`) and of `src/main.py` (logarithm of
`67.8 * 10 - 5.42`) differ at wind speed `1`, so the formula is not
identical across the implementations. -/
theorem u2_formulas_diverge_cex : MockData.u2 1 < Main.u2 1 := by
  have h1 : (0 : ℝ) < Real.log (67.8 * 10 - 5.42) := Real.log_pos (by norm_num)
  have h2 : Real.log (67.8 * 10 - 5.42) < Real.log (67.8 * 10 + 5.42) :=
    Real.log_lt_log (by norm_num) (by norm_num)
  have h2' : (0 : ℝ) < Real.log (67.8 * 10 + 5.42) := lt_trans h1 h2
  unfold MockData.u2 Main.u2
  rw [if_pos h2', one_mul, one_mul]
  exact div_lt_div_of_pos_left (by norm_num) h1 h2

/-- C6 (amended): `src/main.py` and `src/et0_service.py` compute the
2-metre wind adjustment identically as `wind * 4.87 / ln(67.8*10 -
5.42)`, but `src/main_mock_data.py` uses `ln(67.8*10 + 5.42)` and hence
yields a strictly smaller adjustment for every positive wind speed. -/
theorem u2_variants_relation :
    (∀ w : ℝ, Et0Service.u2 w = Main.u2 w) ∧
    ∀ w : ℝ, 0 < w → MockData.u2 w < Main.u2 w := by
  refine ⟨fun w => rfl, fun w hw => ?_⟩
  have h1 : (0 : ℝ) < Real.log (67.8 * 10 - 5.42) := Real.log_pos (by norm_num)
  have h2 : Real.log (67.8 * 10 - 5.42) < Real.log (67.8 * 10 + 5.42) :=
    Real.log_lt_log (by norm_num) (by norm_num)
  have h2' : (0 : ℝ) < Real.log (67.8 * 10 + 5.42) := lt_trans h1 h2
  unfold MockData.u2 Main.u2
  rw [if_pos h2']
  exact mul_lt_mul_of_pos_left
    (div_lt_div_of_pos_left (by norm_num) h1 h2) hw

/-- Witness for C6 (amended) at the concrete wind speed `2`. -/
theorem u2_variants_relation_witness :
    Et0Service.u2 2 = Main.u2 2 ∧ MockData.u2 2 < Main.u2 2 :=
  ⟨u2_variants_relation.1 2, u2_variants_relation.2 2 (by norm_num)⟩

/-- Numeric sine lower bound on the interval containing the day-120
declination argument. -/
lemma sin_lb_of_mem_interval {x : ℝ} (h1 : 0.675 < x) (h2 : x < 0.676) :
    0.59 < Real.sin x := by
  have h0 : (0 : ℝ) < x := by linarith
  have hx2 : x ^ 2 < 0.46 := by nlinarith
  have hx3 : x ^ 3 < 0.32 := by nlinarith
  have h := Real.sin_gt_sub_cube h0 (by linarith : x ≤ 1)
  nlinarith

/-- Numeric sine lower bound on the range of the solar declination. -/
lemma sin_lb_of_decl {x : ℝ} (h1 : 0.24 < x) (h2 : x ≤ 0.409) :
    0.22 < Real.sin x := by
  have h0 : (0 : ℝ) < x := by linarith
  have hx2 : x ^ 2 ≤ 0.17 := by nlinarith
  have hx3 : x ^ 3 ≤ 0.07 := by nlinarith
  have h := Real.sin_gt_sub_cube h0 (by linarith : x ≤ 1)
  nlinarith

/-- On day 120 the solar declination lies in `(0.24, 0.409]`. -/
lemma decl120_bounds :
    0.24 < Main.solar_declination 120 ∧ Main.solar_declination 120 ≤ 0.409 := by
  have hπl : (3.141592 : ℝ) < Real.pi := Real.pi_gt_d6
  have hπu : Real.pi < 3.141593 := Real.pi_lt_d6
  have ha1 : (0.675 : ℝ) < 2 * Real.pi / 365 * 120 - 1.39 := by nlinarith
  have ha2 : 2 * Real.pi / 365 * 120 - 1.39 < 0.676 := by nlinarith
  have hs := sin_lb_of_mem_interval ha1 ha2
  have hs1 := Real.sin_le_one (2 * Real.pi / 365 * 120 - 1.39)
  unfold Main.solar_declination
  constructor <;> nlinarith

/-- The tangent of the day-120 declination exceeds `0.22`. -/
lemma tan_decl120_gt : 0.22 < Real.tan (Main.solar_declination 120) := by
  obtain ⟨hd1, hd2⟩ := decl120_bounds
  have hπl : (3.141592 : ℝ) < Real.pi := Real.pi_gt_d6
  have hsd := sin_lb_of_decl hd1 hd2
  have hcd1 : Real.cos (Main.solar_declination 120) ≤ 1 := Real.cos_le_one _
  have hcd0 : 0 < Real.cos (Main.solar_declination 120) := by
    apply Real.cos_pos_of_mem_Ioo
    constructor <;> [nlinarith; nlinarith]
  rw [Real.tan_eq_sin_div_cos]
  rw [lt_div_iff₀ hcd0]
  nlinarith

/-- The tangent of latitude 89 degrees (in radians) exceeds `5`. -/
lemma tan_lat89_gt : 5 < Real.tan (Main.lat_rad 89) := by
  have hπl : (3.141592 : ℝ) < Real.pi := Real.pi_gt_d6
  have hπu : Real.pi < 3.141593 := Real.pi_lt_d6
  have hL : Main.lat_rad 89 = Real.pi / 2 - Real.pi / 180 := by
    unfold Main.lat_rad
    ring
  have hcosL : Real.cos (Main.lat_rad 89) = Real.sin (Real.pi / 180) := by
    rw [hL, Real.cos_pi_div_two_sub]
  have hcos_ub : Real.cos (Main.lat_rad 89) < 0.01746 := by
    rw [hcosL]
    have := Real.sin_lt (show 0 < Real.pi / 180 by nlinarith)
    nlinarith
  have hcos_pos : 0 < Real.cos (Main.lat_rad 89) := by
    apply Real.cos_pos_of_mem_Ioo
    rw [hL]
    constructor <;> nlinarith
  have hsin_lb : 0.85 < Real.sin (Main.lat_rad 89) := by
    have h3 : Real.sin (Real.pi / 3) < Real.sin (Main.lat_rad 89) := by
      apply Real.sin_lt_sin_of_lt_of_le_pi_div_two
      · nlinarith
      · rw [hL]; nlinarith
      · unfold Main.lat_rad; nlinarith
    rw [Real.sin_pi_div_three] at h3
    have hs3 : (1.7 : ℝ) < Real.sqrt 3 :=
      (Real.lt_sqrt (by norm_num)).mpr (by norm_num)
    nlinarith
  rw [Real.tan_eq_sin_div_cos, lt_div_iff₀ hcos_pos]
  nlinarith

/-- C2: the clamped arc-cosine argument of `src/main_mock_data.py`
always lies in `[-1, 1]` (for all real latitude and day, in particular
on the valid ranges), so its ET0 computation never hits an arc-cosine
domain error; but the unclamped argument of `src/main.py` /
`src/et0_service.py` / `src/main_live_data.py` falls strictly below
`-1` at the valid input latitude `89`, day `120`, where Python's
`math.acos` raises `ValueError`. -/
theorem acos_arg_clamped_and_naive_out_of_range :
    (∀ lat day : ℝ,
      -1 ≤ MockData.acos_arg lat day ∧ MockData.acos_arg lat day ≤ 1) ∧
    Main.acos_arg 89 120 < -1 := by
  constructor
  · intro lat day
    unfold MockData.acos_arg
    exact ⟨le_max_left _ _, max_le (by norm_num) (min_le_left _ _)⟩
  · have h1 := tan_lat89_gt
    have h2 := tan_decl120_gt
    unfold Main.acos_arg
    nlinarith
